import Mathlib

/-
Verification development for the Eco-Counter display-map scraper
(`simple_scraper.py`).  The Python module is shallowly embedded: strings
become `List Char`, Python `dict`/JSON values become the inductive `Json`,
raised exceptions become `Except PyErr`, and the `pandas` join used by the
facade is modelled by the `Frame` structure below.  External collaborators
(the HTTP transport, BeautifulSoup's script enumeration, the `json` module,
`pandas`) are modelled at their interfaces; everything taken from the module
itself follows the source line by line.
-/

namespace EcoScraper

/-- Backslash character. -/
def bslash : Char := '\\'

/-- Double-quote character. -/
def dquote : Char := '"'

/-- U+0000, the placeholder character the scraper uses while unescaping. -/
def nulChar : Char := Char.ofNat 0

/-- Opening curly brace (code point 123). -/
def lbrace : Char := Char.ofNat 123

/-- Closing curly brace (code point 125). -/
def rbrace : Char := Char.ofNat 125

@[simp] theorem dquote_ne_bslash : dquote ≠ bslash := by decide

@[simp] theorem nul_ne_bslash : nulChar ≠ bslash := by decide

@[simp] theorem bslash_ne_nul : bslash ≠ nulChar := by decide

@[simp] theorem dquote_ne_nul : dquote ≠ nulChar := by decide

/-- Model of Python `escaped_json.replace('\\\\', '\x00')` (source line 288):
left-to-right, non-overlapping replacement of each two-character backslash
pair by the U+0000 placeholder. -/
def replBB : List Char → List Char
  | [] => []
  | [c] => [c]
  | c1 :: c2 :: rest =>
    if c1 = bslash ∧ c2 = bslash then nulChar :: replBB rest
    else c1 :: replBB (c2 :: rest)

/-- Model of Python `unescaped.replace('\\"', '"')` (source line 289):
left-to-right replacement of each backslash-quote pair by a bare quote. -/
def replBQ : List Char → List Char
  | [] => []
  | [c] => [c]
  | c1 :: c2 :: rest =>
    if c1 = bslash ∧ c2 = dquote then dquote :: replBQ rest
    else c1 :: replBQ (c2 :: rest)

/-- Model of Python `unescaped.replace('\x00', '\\')` (source line 290): every
U+0000 character becomes a single backslash. -/
def replNull : List Char → List Char
  | [] => []
  | c :: rest => (if c = nulChar then bslash else c) :: replNull rest

/-- The escape normalizer of `_extract_nextjs_data` (source lines 288-290):
placeholder in, quote unescaping, placeholder out. -/
def normalizePush (s : List Char) : List Char := replNull (replBQ (replBB s))

/-- Reference escaping scheme as the specification defines it (spec section 8):
each backslash is written as a double backslash and each double quote as a
backslash-quote.  This definition follows the spec's words; it is the
comparison point for the round-trip claims about `normalizePush`. -/
def escapeRef : List Char → List Char
  | [] => []
  | c :: rest =>
    if c = bslash then bslash :: bslash :: escapeRef rest
    else if c = dquote then bslash :: dquote :: escapeRef rest
    else c :: escapeRef rest

theorem replBB_cons_ne (c : Char) (t : List Char) (h : c ≠ bslash) :
    replBB (c :: t) = c :: replBB t := by
  cases t with
  | nil => simp [replBB]
  | cons a t => simp [replBB, h]

theorem replBQ_cons_ne (c : Char) (t : List Char) (h : c ≠ bslash) :
    replBQ (c :: t) = c :: replBQ t := by
  cases t with
  | nil => simp [replBQ]
  | cons a t => simp [replBQ, h]

theorem replBB_bslash_bslash (t : List Char) :
    replBB (bslash :: bslash :: t) = nulChar :: replBB t := by
  simp [replBB]

theorem replBB_bslash_other (c : Char) (t : List Char) (h : c ≠ bslash) :
    replBB (bslash :: c :: t) = bslash :: replBB (c :: t) := by
  simp [replBB, h]

theorem replBQ_bslash_dquote (t : List Char) :
    replBQ (bslash :: dquote :: t) = dquote :: replBQ t := by
  simp [replBQ]

theorem replNull_cons (c : Char) (t : List Char) :
    replNull (c :: t) = (if c = nulChar then bslash else c) :: replNull t := rfl

/-- Key round-trip characterization: normalizing a reference-escaped string
recovers the original except that every original U+0000 becomes a single
backslash (it collides with the internal placeholder). -/
theorem normalize_escape_eq_replNull (s : List Char) :
    normalizePush (escapeRef s) = replNull s := by
  induction s with
  | nil => rfl
  | cons c rest ih =>
    simp only [normalizePush] at ih ⊢
    by_cases hb : c = bslash
    · subst hb
      have e1 : escapeRef (bslash :: rest) = bslash :: bslash :: escapeRef rest := by
        simp [escapeRef]
      rw [e1, replBB_bslash_bslash, replBQ_cons_ne _ _ nul_ne_bslash,
        replNull_cons, if_pos rfl, replNull_cons, if_neg bslash_ne_nul, ih]
    · by_cases hq : c = dquote
      · subst hq
        have e1 : escapeRef (dquote :: rest) = bslash :: dquote :: escapeRef rest := by
          simp [escapeRef]
        rw [e1, replBB_bslash_other _ _ dquote_ne_bslash,
          replBB_cons_ne _ _ dquote_ne_bslash, replBQ_bslash_dquote,
          replNull_cons, if_neg dquote_ne_nul, replNull_cons, if_neg dquote_ne_nul, ih]
      · have e1 : escapeRef (c :: rest) = c :: escapeRef rest := by
          simp [escapeRef, hb, hq]
        rw [e1, replBB_cons_ne _ _ hb, replBQ_cons_ne _ _ hb,
          replNull_cons, replNull_cons, ih]

theorem replNull_self_of_not_mem : ∀ s : List Char, nulChar ∉ s → replNull s = s := by
  intro s
  induction s with
  | nil => intro _; rfl
  | cons c rest ih =>
    intro h
    simp only [List.mem_cons, not_or] at h
    rw [replNull_cons, if_neg (fun hc => h.1 hc.symm), ih h.2]

theorem replNull_ne_of_mem : ∀ s : List Char, nulChar ∈ s → replNull s ≠ s := by
  intro s
  induction s with
  | nil => intro h; simp at h
  | cons c rest ih =>
    intro h he
    rw [replNull_cons] at he
    injection he with h1 h2
    by_cases hc : c = nulChar
    · rw [if_pos hc] at h1
      exact absurd (h1.trans hc) (by decide)
    · rcases List.mem_cons.mp h with hm | hm
      · exact hc hm.symm
      · exact ih hm h2

/-- Python exception outcomes the embedded code can raise. -/
inductive PyErr where
  | keyError (k : String)
  | indexError
  | typeError
  | valueError (what : String)
  | attributeError
deriving DecidableEq

/-- Decoded JSON values / Python dicts as the scraper manipulates them;
numbers are restricted to the integers the count payloads carry. -/
inductive Json where
  | null
  | bool (b : Bool)
  | num (n : Int)
  | str (s : String)
  | arr (xs : List Json)
  | obj (kvs : List (String × Json))

/-- Check that `pat` occurs at the head of `s`. -/
def leadsWith : List Char → List Char → Bool
  | [], _ => true
  | _ :: _, [] => false
  | p :: ps, c :: cs => p == c && leadsWith ps cs

/-- First index at which `pat` occurs inside the second argument (Python
`str.find`, with `none` for the -1 not-found result). -/
def findSubIdx (pat : List Char) : List Char → Option Nat
  | [] => if leadsWith pat [] then some 0 else none
  | c :: t => if leadsWith pat (c :: t) then some 0 else (findSubIdx pat t).map (· + 1)

/-- Python `pat in hay` on strings. -/
def containsSub (hay pat : List Char) : Bool := (findSubIdx pat hay).isSome

/-- Literal `'self.__next_f.push'` from the dual-marker filter (source line 279). -/
def markerPush : List Char := "self.__next_f.push".toList

/-- Literal `'chartData'` from the dual-marker filter (source line 279). -/
def markerChart : List Char := "chartData".toList

/-- Head literal of the push-call pattern (source line 282). -/
def pushCallHead : List Char := "self.__next_f.push([1,\"".toList

/-- Terminator literal of the push-call pattern (source line 282). -/
def pushCallTail : List Char := "\"])".toList

/-- Literal `'"chartData"'` used as the locator anchor (source line 295). -/
def quotedChartData : List Char := "\"chartData\"".toList

/-- Model of `re.search` with the pattern of source line 282 (DOTALL): the
match starts at the first occurrence of the literal head; the non-greedy
group then captures everything up to (excluding) the first `"])` that leaves
the group at least one character.  If the head never occurs, or no such
terminator follows its first occurrence, the whole search fails (a later head
occurrence leaves even less room for a terminator, so none can succeed). -/
def regexPushCapture (s : List Char) : Option (List Char) :=
  match findSubIdx pushCallHead s with
  | none => none
  | some p =>
    match (s.drop p).drop pushCallHead.length with
    | [] => none
    | c :: t =>
      match findSubIdx pushCallTail t with
      | none => none
      | some q => some (c :: t.take q)

/-- Whitespace recognized by the JSON lexer. -/
def isWsChar (c : Char) : Bool := c == ' ' || c == '\n' || c == '\t' || c == '\r'

/-- Drop leading whitespace. -/
def dropWs : List Char → List Char
  | c :: cs => if isWsChar c then dropWs cs else c :: cs
  | [] => []

/-- Decimal digit test. -/
def isDigitChar (c : Char) : Bool := decide ('0' ≤ c) && decide (c ≤ '9')

/-- Split a maximal run of digits off the front. -/
def takeDigitsPfx : List Char → List Char × List Char
  | c :: cs =>
    if isDigitChar c then
      let p := takeDigitsPfx cs
      (c :: p.1, p.2)
    else ([], c :: cs)
  | [] => ([], [])

/-- Value of a digit run. -/
def digitsVal (ds : List Char) : Nat :=
  ds.foldl (fun a c => a * 10 + (c.toNat - '0'.toNat)) 0

/-- Body of a JSON string after its opening quote, handling the escapes the
scraped payloads use; `none` models a decode error. -/
def parseStrBody (acc : List Char) : List Char → Option (String × List Char)
  | [] => none
  | c :: rest =>
    if c = dquote then some (String.mk acc.reverse, rest)
    else if c = bslash then
      match rest with
      | [] => none
      | e :: rest2 =>
        if e = dquote then parseStrBody (dquote :: acc) rest2
        else if e = bslash then parseStrBody (bslash :: acc) rest2
        else if e = '/' then parseStrBody ('/' :: acc) rest2
        else if e = 'n' then parseStrBody ('\n' :: acc) rest2
        else if e = 't' then parseStrBody ('\t' :: acc) rest2
        else none
    else parseStrBody (c :: acc) rest

/-- An integer literal; a following `.`/`e`/`E` is outside the modelled JSON
fragment and makes the decode fail. -/
def parseIntTok (cs : List Char) : Option (Int × List Char) :=
  let signSplit : Bool × List Char :=
    match cs with
    | c :: r => if c = '-' then (true, r) else (false, cs)
    | [] => (false, cs)
  match takeDigitsPfx signSplit.2 with
  | ([], _) => none
  | (ds, rest) =>
    let v : Int := if signSplit.1 then -(digitsVal ds : Int) else (digitsVal ds : Int)
    match rest with
    | c :: _ => if c = '.' ∨ c = 'e' ∨ c = 'E' then none else some (v, rest)
    | [] => some (v, rest)

/-- Literal token `true`. -/
def litTrue : List Char := "true".toList

/-- Literal token `false`. -/
def litFalse : List Char := "false".toList

/-- Literal token `null`. -/
def litNull : List Char := "null".toList

mutual

/-- One JSON value, recursing on fuel. -/
def jsonValAux : Nat → List Char → Option (Json × List Char)
  | 0, _ => none
  | fuel + 1, cs =>
    match dropWs cs with
    | [] => none
    | c :: r =>
      if c = dquote then
        match parseStrBody [] r with
        | some (s, rest) => some (Json.str s, rest)
        | none => none
      else if c = lbrace then
        match dropWs r with
        | d :: r2 =>
          if d = rbrace then some (Json.obj [], r2)
          else
            match jsonObjItems fuel (d :: r2) with
            | some (kvs, rest) => some (Json.obj kvs, rest)
            | none => none
        | [] => none
      else if c = '[' then
        match dropWs r with
        | d :: r2 =>
          if d = ']' then some (Json.arr [], r2)
          else
            match jsonArrItems fuel (d :: r2) with
            | some (xs, rest) => some (Json.arr xs, rest)
            | none => none
        | [] => none
      else if leadsWith litTrue (c :: r) then some (Json.bool true, (c :: r).drop 4)
      else if leadsWith litFalse (c :: r) then some (Json.bool false, (c :: r).drop 5)
      else if leadsWith litNull (c :: r) then some (Json.null, (c :: r).drop 4)
      else
        match parseIntTok (c :: r) with
        | some (n, rest) => some (Json.num n, rest)
        | none => none

/-- One-or-more comma-separated array elements. -/
def jsonArrItems : Nat → List Char → Option (List Json × List Char)
  | 0, _ => none
  | fuel + 1, cs =>
    match jsonValAux fuel cs with
    | none => none
    | some (v, r) =>
      match dropWs r with
      | c :: r2 =>
        if c = ',' then
          match jsonArrItems fuel (dropWs r2) with
          | some (vs, rest) => some (v :: vs, rest)
          | none => none
        else if c = ']' then some ([v], r2)
        else none
      | [] => none

/-- One-or-more comma-separated object members, in source order (a duplicate
key keeps both entries in the list; lookups below take the last one, matching
the successive-assignment semantics of the Python dict). -/
def jsonObjItems : Nat → List Char → Option (List (String × Json) × List Char)
  | 0, _ => none
  | fuel + 1, cs =>
    match dropWs cs with
    | c :: r =>
      if c = dquote then
        match parseStrBody [] r with
        | none => none
        | some (k, r1) =>
          match dropWs r1 with
          | d :: r2 =>
            if d = ':' then
              match jsonValAux fuel (dropWs r2) with
              | none => none
              | some (v, r3) =>
                match dropWs r3 with
                | e :: r4 =>
                  if e = ',' then
                    match jsonObjItems fuel r4 with
                    | some (kvs, rest) => some ((k, v) :: kvs, rest)
                    | none => none
                  else if e = rbrace then some ([(k, v)], r4)
                  else none
                | [] => none
            else none
          | [] => none
      else none
    | [] => none

end

/-- Model of the external `json.loads` on the JSON fragment these pages carry
(objects, arrays, strings with quote/backslash/slash/newline/tab escapes,
integers, booleans, null).  `none` models `json.JSONDecodeError`; in
particular the empty string fails to decode, exactly as in Python.  The whole
input must be consumed apart from trailing whitespace. -/
def jsonLoads (cs : List Char) : Option Json :=
  match jsonValAux (cs.length + 1) cs with
  | none => none
  | some (v, rest) => if dropWs rest = [] then some v else none

/-- Lookup in a decoded object, last entry winning, as in the Python dict
built by `json.loads`. -/
def lookupLast (kvs : List (String × Json)) (k : String) : Option Json :=
  kvs.foldl (fun acc kv => if kv.1 == k then some kv.2 else acc) none

/-- Python subscription `d[k]` with a string key: member lookup on a dict
(`KeyError` when absent), `TypeError` on anything else. -/
def jsonGetKey : Json → String → Except PyErr Json
  | Json.obj kvs, k =>
    match lookupLast kvs k with
    | some v => Except.ok v
    | none => Except.error (PyErr.keyError k)
  | _, _ => Except.error PyErr.typeError

/-- Python subscription `d[i]` with a numeric index: list indexing
(`IndexError` past the end), character of a string, `KeyError` on a dict,
`TypeError` otherwise. -/
def jsonIndexNat : Json → Nat → Except PyErr Json
  | Json.arr xs, i =>
    match xs.get? i with
    | some v => Except.ok v
    | none => Except.error PyErr.indexError
  | Json.obj _, _ => Except.error (PyErr.keyError "0")
  | Json.str s, i =>
    match s.toList.get? i with
    | some c => Except.ok (Json.str (String.mk [c]))
    | none => Except.error PyErr.indexError
  | _, _ => Except.error PyErr.typeError

/-- Python iteration `for x in d`: a list yields its elements, a dict its
keys, a string its characters; anything else raises `TypeError`. -/
def jsonIter : Json → Except PyErr (List Json)
  | Json.arr xs => Except.ok xs
  | Json.obj kvs => Except.ok (kvs.map fun kv => Json.str kv.1)
  | Json.str s => Except.ok (s.toList.map fun c => Json.str (String.mk [c]))
  | _ => Except.error PyErr.typeError

/-- Python membership `k in d` for a string `k`: key membership on a dict,
element equality on a list (only string elements can equal `k`), substring
test on a string, `TypeError` otherwise — the scraper runs these checks
inside a `try` that only catches decode errors, so the `TypeError` escapes. -/
def jsonContains : Json → String → Except PyErr Bool
  | Json.obj kvs, k => Except.ok (kvs.any fun kv => kv.1 == k)
  | Json.arr xs, k =>
    Except.ok (xs.any fun x =>
      match x with
      | Json.str s => s == k
      | _ => false)
  | Json.str s, k => Except.ok (containsSub s.toList k.toList)
  | _, _ => Except.error PyErr.typeError

/-- Forward depth-counting scan of `_extract_nextjs_data` (source lines
307-317) over the characters from absolute position `i`, the count being a
Python `int`: it returns the absolute index one past the closing brace the
first time the count returns to zero on a closing brace, and `none` when that
never happens before the end of the text. -/
def braceLoop : List Char → Int → Nat → Option Nat
  | [], _, _ => none
  | c :: rest, depth, i =>
    if c = lbrace then braceLoop rest (depth + 1) (i + 1)
    else if c = rbrace then
      if depth - 1 = 0 then some (i + 1) else braceLoop rest (depth - 1) (i + 1)
    else braceLoop rest depth (i + 1)

/-- Python's `end_pos`: initialized to `start_pos` and only moved when the
count returns to zero (source lines 308-317), so an unbalanced text leaves it
at `start_pos`. -/
def findMatchingEnd (s : List Char) (startPos : Nat) : Nat :=
  (braceLoop (s.drop startPos) 0 startPos).getD startPos

/-- Backward scan to the presumed opening brace (source lines 299-305): from
`chart_start` step left until an opening brace is found or position 0 is
reached (position 0 itself is never examined). -/
def backToBrace (s : List Char) : Nat → Nat
  | 0 => 0
  | n + 1 => if s.get? (n + 1) = some lbrace then n + 1 else backToBrace s n

/-- The substring `unescaped[start_pos:end_pos]` (source line 319). -/
def locatedJson (s : List Char) (startPos : Nat) : List Char :=
  (s.take (findMatchingEnd s startPos)).drop startPos

/-- Treatment of a single script element by `_extract_nextjs_data` (source
lines 274-331).  The argument is the script's `.string` as produced by the
external HTML parser (`none` when the element has none; the empty string is
falsy in Python, so both are skipped).  `.ok none` means the loop continues
with the next script, `.ok (some d)` means the function returns `d`, and
`.error` models an uncaught exception: the membership checks sit in a `try`
that only catches `json.JSONDecodeError`. -/
def processScript (scriptContent : Option (List Char)) : Except PyErr (Option Json) :=
  match scriptContent with
  | none => Except.ok none
  | some sc =>
    if sc.isEmpty then Except.ok none
    else if containsSub sc markerPush && containsSub sc markerChart then
      match regexPushCapture sc with
      | none => Except.ok none
      | some escapedJson =>
        match findSubIdx quotedChartData (normalizePush escapedJson) with
        | none => Except.ok none
        | some chartStart =>
          match jsonLoads (locatedJson (normalizePush escapedJson)
              (backToBrace (normalizePush escapedJson) chartStart)) with
          | none => Except.ok none
          | some data =>
            match jsonContains data "chartData" with
            | Except.error e => Except.error e
            | Except.ok false => Except.ok none
            | Except.ok true =>
              match jsonContains data "kpi" with
              | Except.error e => Except.error e
              | Except.ok false => Except.ok none
              | Except.ok true => Except.ok (some data)
    else Except.ok none

/-- The `_extract_nextjs_data` scan over the page's inline scripts in document
order (source lines 272-332); exhausting all scripts returns the empty dict. -/
def extract_nextjs_data : List (Option (List Char)) → Except PyErr Json
  | [] => Except.ok (Json.obj [])
  | sc :: rest =>
    match processScript sc with
    | Except.error e => Except.error e
    | Except.ok (some d) => Except.ok d
    | Except.ok none => extract_nextjs_data rest

/-- pandas DataFrame as the facade uses it: named columns (the names are the
raw values the site supplies, hence `Json`), and one row of optional cells
per index entry, keyed by timestamp.  Timestamps are modelled as the ISO
strings the payload carries, whose lexicographic order is the chronological
one; a `none` cell models the NaN/null a pandas outer join fills in. -/
structure Frame where
  columns : List Json
  rows : List (String × List (Option Json))

/-- Lexicographic order on character lists, by code point. -/
def lexLtB : List Char → List Char → Bool
  | [], [] => false
  | [], _ :: _ => true
  | _ :: _, [] => false
  | a :: xs, b :: ys =>
    if a.val < b.val then true
    else if b.val < a.val then false
    else lexLtB xs ys

/-- Timestamp comparison (chronological, via the ISO-string model). -/
def tsLt (a b : String) : Bool := lexLtB a.toList b.toList

/-- Stable ascending insertion. -/
def tsInsert (x : String) : List String → List String
  | [] => [x]
  | y :: ys => if tsLt y x then y :: tsInsert x ys else x :: y :: ys

/-- Ascending sort of an index. -/
def tsSort (l : List String) : List String := l.foldr tsInsert []

/-- Sorted union of two indexes, as pandas `Index.union` produces for an
outer join. -/
def unionIdx (a b : List String) : List String :=
  tsSort (a ++ b.filter fun t => !(a.contains t))

/-- Row of a frame at a given timestamp, when present. -/
def lookupRow (f : Frame) (t : String) : Option (List (Option Json)) :=
  (f.rows.find? fun r => r.1 == t).map fun r => r.2

/-- pandas `DataFrame.join(other, how='outer')` as `fetch_counts` and
`_extract_directional_counts` use it: rows are aligned on the sorted union
of the two indexes, columns are concatenated, and a row absent from a side
contributes null cells for that side's columns. -/
def Frame.join (f1 f2 : Frame) : Frame :=
  ⟨f1.columns ++ f2.columns,
   (unionIdx (f1.rows.map fun r => r.1) (f2.rows.map fun r => r.1)).map
     fun t =>
       (t, ((lookupRow f1 t).getD (f1.columns.map fun _ => none)) ++
           ((lookupRow f2 t).getD (f2.columns.map fun _ => none)))⟩

/-- Conversion of Python `pd.Timestamp(value)` for the values these payloads
carry: an ISO string stays itself, an integer epoch is kept as its decimal
string; anything else fails the conversion. -/
def tsOfJson : Json → Except PyErr String
  | Json.str s => Except.ok s
  | Json.num n => Except.ok (toString n)
  | _ => Except.error (PyErr.valueError "timestamp")

/-- Rows of `_counts_as_df`: one `(Timestamp(entry['timestamp']),
entry['traffic']['counts'])` pair per record (source lines 372-375), the
timestamp converted first, as in the source tuple. -/
def countRows : List Json → Except PyErr (List (String × List (Option Json)))
  | [] => Except.ok []
  | entry :: rest =>
    match jsonGetKey entry "timestamp" with
    | Except.error e => Except.error e
    | Except.ok tsv =>
      match tsOfJson tsv with
      | Except.error e => Except.error e
      | Except.ok ts =>
        match jsonGetKey entry "traffic" with
        | Except.error e => Except.error e
        | Except.ok traffic =>
          match jsonGetKey traffic "counts" with
          | Except.error e => Except.error e
          | Except.ok cnt =>
            match countRows rest with
            | Except.error e => Except.error e
            | Except.ok rows => Except.ok ((ts, [some cnt]) :: rows)

/-- `_counts_as_df` (source lines 357-376): the records of a data field as a
frame with the single column `count`, indexed by timestamp. -/
def counts_as_df (dataField : Json) : Except PyErr Frame :=
  match jsonIter dataField with
  | Except.error e => Except.error e
  | Except.ok entries =>
    match countRows entries with
    | Except.error e => Except.error e
    | Except.ok rows => Except.ok ⟨[Json.str "count"], rows⟩

/-- `_extract_global_counts` (source lines 334-355):
`fetched_data['chartData'][0]['data']` shaped into the aggregate frame. -/
def extract_global_counts (fetchedData : Json) : Except PyErr Frame :=
  match jsonGetKey fetchedData "chartData" with
  | Except.error e => Except.error e
  | Except.ok cd =>
    match jsonIndexNat cd 0 with
    | Except.error e => Except.error e
    | Except.ok first =>
      match jsonGetKey first "data" with
      | Except.error e => Except.error e
      | Except.ok df => counts_as_df df

/-- Loop body of `_extract_directional_counts` (source lines 397-401): for
each entry read the direction code, build the counts frame of its data field,
and rename the `count` column to the code. -/
def dirFrames : List Json → Except PyErr (List Frame)
  | [] => Except.ok []
  | dd :: rest =>
    match jsonGetKey dd "direction" with
    | Except.error e => Except.error e
    | Except.ok dirName =>
      match jsonGetKey dd "data" with
      | Except.error e => Except.error e
      | Except.ok df =>
        match counts_as_df df with
        | Except.error e => Except.error e
        | Except.ok fr =>
          match dirFrames rest with
          | Except.error e => Except.error e
          | Except.ok frs =>
            Except.ok
              ({ fr with
                  columns := fr.columns.map fun c =>
                    match c with
                    | Json.str s => if s == "count" then dirName else Json.str s
                    | other => other } :: frs)

/-- `_extract_directional_counts` (source lines 378-406): one renamed frame
per direction entry, then a left-to-right outer join seeded with
`dir_data[0]` — which raises `IndexError` when `directionGraphData` is an
empty list. -/
def extract_directional_counts (fetchedData : Json) : Except PyErr Frame :=
  match jsonGetKey fetchedData "directionGraphData" with
  | Except.error e => Except.error e
  | Except.ok dgd =>
    match jsonIter dgd with
    | Except.error e => Except.error e
    | Except.ok items =>
      match dirFrames items with
      | Except.error e => Except.error e
      | Except.ok [] => Except.error PyErr.indexError
      | Except.ok (f :: fs) => Except.ok (fs.foldl Frame.join f)

/-- The dataset-assembly step of `fetch_counts` (source lines 102-103): the
aggregate frame outer-joined with the directional frame, from the payload the
scrape step produced. -/
def fetch_counts_from_payload (jsonLikeData : Json) : Except PyErr Frame :=
  match extract_global_counts jsonLikeData with
  | Except.error e => Except.error e
  | Except.ok g =>
    match extract_directional_counts jsonLikeData with
    | Except.error e => Except.error e
    | Except.ok dir => Except.ok (Frame.join g dir)

/-- Fields captured by the `_site_metadata` regular expression (source lines
423-428) when it matches. -/
structure SiteMeta where
  siteName : String
  lat : String
  lon : String
  firstData : String

/-- The mutable attributes of `EcoCounterScraper` that the initialization
block touches (source lines 38, 178-181, 429-434, 453-457); the `Option`
fields are absent attributes before initialization. -/
structure ScraperState where
  isInitialized : Bool
  siteName : Option String
  siteLocation : Option (String × String)
  siteFirstData : Option String
  directionNames : List (Json × Json)

/-- Loop of `_set_direction_names` (source lines 453-456): one
`direction ↦ directionName` pair per entry, in iteration order. -/
def directionNamePairs : List Json → Except PyErr (List (Json × Json))
  | [] => Except.ok []
  | dd :: rest =>
    match jsonGetKey dd "direction" with
    | Except.error e => Except.error e
    | Except.ok dirName =>
      match jsonGetKey dd "directionName" with
      | Except.error e => Except.error e
      | Except.ok dispName =>
        match directionNamePairs rest with
        | Except.error e => Except.error e
        | Except.ok pairs => Except.ok ((dirName, dispName) :: pairs)

/-- `_set_direction_names` (source lines 437-458). -/
def set_direction_names (fetchedData : Json) : Except PyErr (List (Json × Json)) :=
  match jsonGetKey fetchedData "directionGraphData" with
  | Except.error e => Except.error e
  | Except.ok dgd =>
    match jsonIter dgd with
    | Except.error e => Except.error e
    | Except.ok items => directionNamePairs items

/-- Initialization block of `_scrape_count_structure` (source lines 177-182):
nothing happens once `is_initialized` is set; otherwise `_site_metadata` runs,
then `_set_direction_names`, and only then is the flag raised — an exception
in either leaves the state untouched.  `metaOutcome` is the outcome of the
`_site_metadata` regular expression over the raw fetched page (source lines
408-435), supplied abstractly because the page text is an external input;
`.error .attributeError` models `re.search` finding no match, whose
`.groupdict()` then raises `AttributeError`. -/
def scrape_count_init (st : ScraperState) (metaOutcome : Except PyErr SiteMeta)
    (result : Json) : Except PyErr ScraperState :=
  if st.isInitialized then Except.ok st
  else
    match metaOutcome with
    | Except.error e => Except.error e
    | Except.ok m =>
      match set_direction_names result with
      | Except.error e => Except.error e
      | Except.ok dn =>
        Except.ok ⟨true, some m.siteName, some (m.lat, m.lon), some m.firstData, dn⟩

/-- The `freq_to_granularity_api` table (source lines 19-24). -/
def freq_to_granularity_api : String → Option String
  | "D" => some "P1D"
  | "W" => some "P1W"
  | "M" => some "P1M"
  | "Y" => some "P1Y"
  | _ => none

/-- `_build_url` (source lines 184-220); empty date strings are falsy in
Python and leave their query parameter off. -/
def build_url (siteId granularity startD endD : String) : String :=
  let u := "https://eco-display-map.eco-counter.com/site/" ++ siteId ++
    "?granularity=" ++ granularity
  let u2 := if startD ≠ "" then u ++ "&startDate=" ++ startD else u
  if endD ≠ "" then u2 ++ "&endDate=" ++ endD else u2

/-- Model of `pd.Timestamp.date().isoformat()` on an ISO timestamp string:
its first ten characters, the `YYYY-MM-DD` part. -/
def dateIso (ts : String) : String := String.mk (ts.toList.take 10)

/-- The validation-and-URL prefix of `_scrape_count_structure` (source lines
154-169): the date-order check first (`ValueError` when `start >= end`), the
frequency table second (`KeyError` re-raised as `ValueError`), the URL last. -/
def scrape_request_url (siteId startTs endTs freq : String) : Except PyErr String :=
  if tsLt startTs endTs then
    match freq_to_granularity_api freq with
    | none => Except.error (PyErr.valueError "unsupported frequency")
    | some g => Except.ok (build_url siteId g (dateIso startTs) (dateIso endTs))
  else Except.error (PyErr.valueError "start_date must be before end_date")

/-- `_scrape_count_structure` up to and including its network call, with the
HTTP collaborator `fetchHtml` passed in (source lines 154-172): the
collaborator is consulted only after validation produced a URL. -/
def scrape_fetch_stage (fetchHtml : String → Except PyErr String)
    (siteId startTs endTs freq : String) : Except PyErr String :=
  match scrape_request_url siteId startTs endTs freq with
  | Except.error e => Except.error e
  | Except.ok url => fetchHtml url

/-- Failure modes the specification's Locator contract names (spec section
4.1). -/
inductive LocateFailure where
  | markerNotFound
  | unbalancedBraces
deriving DecidableEq

/-- Forward brace scan exactly as the specification states it (spec sections
4.1 and 7): the same depth-counting loop as the implementation, but failing
with `UnbalancedBraces` when the depth never returns to zero before the end
of the text.  This definition follows the spec's words; it exists to be
compared with the implementation's `findMatchingEnd`. -/
def forwardScanSpec (s : List Char) (startPos : Nat) : Except LocateFailure Nat :=
  match braceLoop (s.drop startPos) 0 startPos with
  | some e => Except.ok e
  | none => Except.error LocateFailure.unbalancedBraces

/-- Payload a script "yields": the markers, regex, normalizer, locator and
JSON decode of `_extract_nextjs_data`, without the final key-membership
filter.  Used to state the payload-selection claims. -/
def scriptParsedPayload (scriptContent : Option (List Char)) : Option Json :=
  match scriptContent with
  | none => none
  | some sc =>
    if sc.isEmpty then none
    else if containsSub sc markerPush && containsSub sc markerChart then
      match regexPushCapture sc with
      | none => none
      | some escapedJson =>
        match findSubIdx quotedChartData (normalizePush escapedJson) with
        | none => none
        | some chartStart =>
          jsonLoads (locatedJson (normalizePush escapedJson)
            (backToBrace (normalizePush escapedJson) chartStart))
    else none

/-- Key membership on a decoded mapping, as the claims phrase "JSON
containing the top-level key". -/
def jsonHasKeyB (d : Json) (k : String) : Bool :=
  match d with
  | Json.obj kvs => kvs.any fun kv => kv.1 == k
  | _ => false

/-- Whether a script yields a successful parse containing both the aggregate
container `chartData` and the per-direction container `directionGraphData`,
the condition the claim names for a non-empty extraction result. -/
def scriptYieldsBothSpec (scriptContent : Option (List Char)) : Bool :=
  match scriptParsedPayload scriptContent with
  | some p => jsonHasKeyB p "chartData" && jsonHasKeyB p "directionGraphData"
  | none => false

/-- Extraction produced a non-empty payload (anything but the empty dict). -/
def nonEmptyPayloadB : Except PyErr Json → Bool
  | Except.ok (Json.obj []) => false
  | Except.ok _ => true
  | Except.error _ => false

/-- Statement of the claim that the extractor returns a non-empty payload
exactly when some script yields a successful parse containing both
`chartData` and `directionGraphData`. -/
def extractorKeyClaim : Prop :=
  ∀ scripts : List (Option (List Char)),
    nonEmptyPayloadB (extract_nextjs_data scripts) = true ↔
      scripts.any scriptYieldsBothSpec = true

/-- Script whose push payload decodes to `\x7b"chartData":[1],"kpi":2\x7d`. -/
def scriptChartKpi : List Char :=
  "self.__next_f.push([1,\"\x7b\\\"chartData\\\":[1],\\\"kpi\\\":2\x7d\"])".toList

/-- Script that carries both markers but whose located substring
`\x7b"chartData":\x7d` fails to decode. -/
def scriptBadJson : List Char :=
  "self.__next_f.push([1,\"\x7b\\\"chartData\\\":\x7d\"])".toList

/-- The decoded payload of `scriptChartKpi`. -/
def payloadChartKpi : Json :=
  Json.obj [("chartData", Json.arr [Json.num 1]), ("kpi", Json.num 2)]

/-- One count record `\x7btimestamp, traffic: \x7bcounts\x7d\x7d`. -/
def sampleRecord (t : String) (c : Int) : Json :=
  Json.obj [("timestamp", Json.str t), ("traffic", Json.obj [("counts", Json.num c)])]

/-- Payload for the assembler example: aggregate `\x7bt1:5, t2:7\x7d`,
directions `north=\x7bt1:3\x7d` and `south=\x7bt2:7\x7d`. -/
def payloadJoinExample : Json := Json.obj [
  ("chartData", Json.arr [Json.obj [("data",
    Json.arr [sampleRecord "2024-01-01" 5, sampleRecord "2024-01-02" 7])]]),
  ("directionGraphData", Json.arr [
    Json.obj [("direction", Json.str "north"), ("directionName", Json.str "North"),
      ("data", Json.arr [sampleRecord "2024-01-01" 3])],
    Json.obj [("direction", Json.str "south"), ("directionName", Json.str "South"),
      ("data", Json.arr [sampleRecord "2024-01-02" 7])]])]

/-- Payload with a well-formed aggregate series but an empty
`directionGraphData` list. -/
def payloadEmptyDirections : Json := Json.obj [
  ("chartData", Json.arr [Json.obj [("data", Json.arr [])]]),
  ("directionGraphData", Json.arr [])]

/-- Payload passing the extractor's key filter whose `directionGraphData` is
the empty list. -/
def payloadEmptyDirInit : Json := Json.obj [
  ("chartData", Json.arr []), ("kpi", Json.num 0), ("directionGraphData", Json.arr [])]

/-- Payload with a single direction entry, for the initialization witness. -/
def payloadOneDirection : Json := Json.obj [
  ("directionGraphData", Json.arr [
    Json.obj [("direction", Json.str "in"), ("directionName", Json.str "Inbound"),
      ("data", Json.arr [])]])]

/-- A freshly constructed scraper: `is_initialized = False`, no cached
attributes (source line 38). -/
def stateUninitialized : ScraperState := ⟨false, none, none, none, []⟩

/-- A metadata outcome for the initialization examples. -/
def sampleMeta : SiteMeta := ⟨"Cagnes-sur-Mer", "43.66", "7.14", "2020-01-01"⟩

theorem nul_not_mem_replNull : ∀ t : List Char, nulChar ∉ replNull t := by
  intro t
  induction t with
  | nil => simp [replNull]
  | cons c rest ih =>
    rw [replNull_cons]
    simp only [List.mem_cons, not_or]
    refine ⟨?_, ih⟩
    by_cases hc : c = nulChar
    · rw [if_pos hc]
      exact fun h => bslash_ne_nul h.symm
    · rw [if_neg hc]
      exact fun h => hc h.symm

theorem processScript_ok_some (sc : Option (List Char)) (d : Json)
    (h : processScript sc = Except.ok (some d)) :
    jsonContains d "chartData" = Except.ok true ∧ jsonContains d "kpi" = Except.ok true := by
  unfold processScript at h
  repeat' split at h
  all_goals simp at h
  all_goals cases h
  all_goals exact ⟨by assumption, by assumption⟩

/-- C5 counterexample: the round-trip claim quantifies over every string, but
a string consisting of the single character U+0000 is escaped to itself and
then normalized to a single backslash, not back to U+0000. -/
theorem c5_roundtrip_counterexample :
    normalizePush (escapeRef [nulChar]) = [bslash] ∧ [bslash] ≠ [nulChar] :=
  ⟨rfl, by decide⟩

/-- C5 (amended): applying the Escape Normalizer to a string escaped by the
reference scheme returns the original string, including strings with literal
backslashes adjacent to quotes, provided the original contains no U+0000
character (the normalizer's internal placeholder). -/
theorem c5_roundtrip_no_nul (s : List Char) (h : nulChar ∉ s) :
    normalizePush (escapeRef s) = s :=
  (normalize_escape_eq_replNull s).trans (replNull_self_of_not_mem s h)

/-- Witness for C5 at the string backslash-quote-a-backslash-backslash-quote,
which mixes escaped backslashes and escaped quotes adjacently. -/
theorem c5_roundtrip_no_nul_witness :
    normalizePush (escapeRef [bslash, dquote, 'a', bslash, bslash, dquote]) =
      [bslash, dquote, 'a', bslash, bslash, dquote] :=
  c5_roundtrip_no_nul _ (by decide)

/-- C10: the normalizer's output equals the original with every U+0000
rewritten to a backslash, so the round-trip fails as soon as the original
contains U+0000; moreover no U+0000 ever survives normalization of any
input, since the final replace rewrites every occurrence. -/
theorem c10_placeholder_rewrite (s : List Char) :
    normalizePush (escapeRef s) = replNull s ∧
      (nulChar ∈ s → normalizePush (escapeRef s) ≠ s) ∧
      nulChar ∉ normalizePush s := by
  refine ⟨normalize_escape_eq_replNull s, fun hm he => ?_, nul_not_mem_replNull _⟩
  exact replNull_ne_of_mem s hm ((normalize_escape_eq_replNull s).symm.trans he)

/-- Witness for C10 at the one-character string U+0000. -/
theorem c10_placeholder_rewrite_witness :
    normalizePush (escapeRef [nulChar]) = replNull [nulChar] ∧
      normalizePush (escapeRef [nulChar]) ≠ [nulChar] :=
  ⟨(c10_placeholder_rewrite [nulChar]).1,
   (c10_placeholder_rewrite [nulChar]).2.1 (by decide)⟩

/-- C2 counterexample: on the unbalanced text consisting of an opening brace
followed by two letters, the spec's scan fails with `UnbalancedBraces`, while
the implementation raises nothing and leaves `end_pos` at `start_pos`,
returning the degenerate span — so the claim that the locator fails rather
than returning a span is false on this input. -/
theorem c2_unbalanced_counterexample :
    forwardScanSpec [lbrace, 'a', 'b'] 0 = Except.error LocateFailure.unbalancedBraces ∧
      findMatchingEnd [lbrace, 'a', 'b'] 0 = 0 ∧
      Except.ok (findMatchingEnd [lbrace, 'a', 'b'] 0) ≠ forwardScanSpec [lbrace, 'a', 'b'] 0 := by
  refine ⟨rfl, rfl, ?_⟩
  intro h
  rw [show forwardScanSpec [lbrace, 'a', 'b'] 0 =
    Except.error LocateFailure.unbalancedBraces from rfl] at h
  exact Except.noConfusion h

/-- C2 (amended): when the depth counter never returns to zero, the
implementation's locator leaves `end_pos` at `start_pos`, the located
substring is empty, and its JSON decode fails, so the script is skipped; the
spec-modelled scan errors with `UnbalancedBraces` on exactly these inputs,
but no such typed error exists in the implementation. -/
theorem c2_unbalanced_empty_slice (s : List Char) (startPos : Nat)
    (h : braceLoop (s.drop startPos) 0 startPos = none) :
    findMatchingEnd s startPos = startPos ∧
      locatedJson s startPos = [] ∧
      jsonLoads (locatedJson s startPos) = none ∧
      forwardScanSpec s startPos = Except.error LocateFailure.unbalancedBraces := by
  have h1 : findMatchingEnd s startPos = startPos := by
    simp [findMatchingEnd, h]
  have h2 : locatedJson s startPos = [] := by
    rw [locatedJson, h1]
    refine List.drop_eq_nil_of_le ?_
    simp only [List.length_take]
    exact Nat.min_le_left startPos s.length
  refine ⟨h1, h2, ?_, ?_⟩
  · rw [h2]; rfl
  · simp [forwardScanSpec, h]

/-- Witness for C2 at the unbalanced text brace-z scanned from position 0. -/
theorem c2_unbalanced_empty_slice_witness :
    findMatchingEnd [lbrace, 'z'] 0 = 0 ∧
      locatedJson [lbrace, 'z'] 0 = [] ∧
      jsonLoads (locatedJson [lbrace, 'z'] 0) = none ∧
      forwardScanSpec [lbrace, 'z'] 0 = Except.error LocateFailure.unbalancedBraces :=
  c2_unbalanced_empty_slice _ _ rfl

/-- C8: for every pair of timestamps with start not before end, the scrape
stage raises the date-range `ValueError`, uniformly in the HTTP collaborator
— the fetch function is never consulted, so validation precedes any network
call. -/
theorem c8_date_validation_before_network
    (fetchHtml : String → Except PyErr String) (siteId startTs endTs freq : String)
    (h : tsLt startTs endTs = false) :
    scrape_fetch_stage fetchHtml siteId startTs endTs freq =
      Except.error (PyErr.valueError "start_date must be before end_date") := by
  simp [scrape_fetch_stage, scrape_request_url, h]

/-- Witness for C8 with a start date after the end date and a collaborator
that would succeed if it were ever called. -/
theorem c8_date_validation_before_network_witness :
    scrape_fetch_stage (fun _ => Except.ok "") "300037212" "2024-01-05" "2024-01-01" "D" =
      Except.error (PyErr.valueError "start_date must be before end_date") :=
  c8_date_validation_before_network _ _ _ _ _ rfl

/-- C1 counterexample: with no scripts the Extractor yields the empty
payload, and the assembly step of `fetch_counts` then raises `KeyError`
on `chartData` instead of returning an empty Dataset. -/
theorem c1_empty_payload_counterexample :
    extract_nextjs_data [] = Except.ok (Json.obj []) ∧
      fetch_counts_from_payload (Json.obj []) = Except.error (PyErr.keyError "chartData") :=
  ⟨rfl, rfl⟩

/-- C1 (amended): whenever extraction yields the empty payload,
`fetch_counts` raises `KeyError` on the missing `chartData` key and never
returns a Dataset, empty or not. -/
theorem c1_empty_payload_raises (scripts : List (Option (List Char))) (d : Json)
    (h1 : extract_nextjs_data scripts = Except.ok d) (h2 : d = Json.obj []) :
    fetch_counts_from_payload d = Except.error (PyErr.keyError "chartData") ∧
      ∀ f : Frame, fetch_counts_from_payload d ≠ Except.ok f := by
  subst h2
  refine ⟨rfl, ?_⟩
  intro f hf
  rw [show fetch_counts_from_payload (Json.obj []) =
    Except.error (PyErr.keyError "chartData") from rfl] at hf
  exact Except.noConfusion hf

/-- Witness for C1 at the empty script list. -/
theorem c1_empty_payload_raises_witness :
    fetch_counts_from_payload (Json.obj []) = Except.error (PyErr.keyError "chartData") ∧
      fetch_counts_from_payload (Json.obj []) ≠ Except.ok ⟨[], []⟩ :=
  ⟨(c1_empty_payload_raises [] (Json.obj []) rfl rfl).1,
   (c1_empty_payload_raises [] (Json.obj []) rfl rfl).2 ⟨[], []⟩⟩

/-- C3 counterexample: a script whose payload decodes to an object holding
`chartData` and `kpi` but no `directionGraphData` is accepted and returned as
a non-empty payload, so a non-empty result does not require the
per-direction container the claim names. -/
theorem c3_key_filter_counterexample : ¬ extractorKeyClaim := by
  intro h
  have h2 := (h [some scriptChartKpi]).mp rfl
  exact absurd h2 (by decide)

/-- C3 (amended): a non-empty extraction result always comes from a decoded
payload passing the membership checks for `chartData` and `kpi` — not
`directionGraphData`; exhausting all scripts yields the empty dict. -/
theorem c3_nonempty_has_chartData_and_kpi :
    ∀ (scripts : List (Option (List Char))) (d : Json),
      extract_nextjs_data scripts = Except.ok d →
      d = Json.obj [] ∨
        (jsonContains d "chartData" = Except.ok true ∧
          jsonContains d "kpi" = Except.ok true) := by
  intro scripts
  induction scripts with
  | nil =>
    intro d h
    unfold extract_nextjs_data at h
    exact Or.inl (Except.ok.inj h).symm
  | cons sc rest ih =>
    intro d h
    unfold extract_nextjs_data at h
    split at h
    · exact absurd h (by simp)
    · rename_i heq
      right
      cases Except.ok.inj h
      exact processScript_ok_some sc _ heq
    · exact ih d h

/-- Witness for C3 at the single accepted script. -/
theorem c3_nonempty_has_chartData_and_kpi_witness :
    payloadChartKpi = Json.obj [] ∨
      (jsonContains payloadChartKpi "chartData" = Except.ok true ∧
        jsonContains payloadChartKpi "kpi" = Except.ok true) :=
  c3_nonempty_has_chartData_and_kpi [some scriptChartKpi] payloadChartKpi rfl

/-- C4 counterexample: an extraction result whose `directionGraphData` is the
empty list still flips `is_initialized` and caches metadata with an empty
direction mapping, so the transition does not wait for non-empty
`directionGraphData`. -/
theorem c4_init_on_empty_directions :
    scrape_count_init stateUninitialized (Except.ok sampleMeta) payloadEmptyDirInit =
      Except.ok ⟨true, some "Cagnes-sur-Mer", some ("43.66", "7.14"), some "2020-01-01", []⟩ ∧
      jsonGetKey payloadEmptyDirInit "directionGraphData" = Except.ok (Json.arr []) :=
  ⟨rfl, rfl⟩

/-- C4 (amended): once initialized, a fetch leaves the cached state exactly
as it is (metadata and direction names are not re-derived); while
uninitialized, a call whose metadata extraction succeeds and whose result
carries a `directionGraphData` key — empty or not — transitions to the
initialized state with the captured metadata and direction-name mapping. -/
theorem c4_single_transition (st : ScraperState) (meta : Except PyErr SiteMeta) (r : Json) :
    (st.isInitialized = true → scrape_count_init st meta r = Except.ok st) ∧
      (st.isInitialized = false → ∀ (m : SiteMeta) (dn : List (Json × Json)),
        meta = Except.ok m → set_direction_names r = Except.ok dn →
        scrape_count_init st meta r =
          Except.ok ⟨true, some m.siteName, some (m.lat, m.lon), some m.firstData, dn⟩) := by
  constructor
  · intro h
    simp [scrape_count_init, h]
  · intro h m dn hm hdn
    simp [scrape_count_init, h, hm, hdn]

/-- Witness for C4: an already-initialized state is returned unchanged, and
an uninitialized state transitions on a one-direction payload. -/
theorem c4_single_transition_witness :
    scrape_count_init ⟨true, some "X", none, none, []⟩ (Except.ok sampleMeta) (Json.obj []) =
      Except.ok ⟨true, some "X", none, none, []⟩ ∧
      scrape_count_init stateUninitialized (Except.ok sampleMeta) payloadOneDirection =
        Except.ok ⟨true, some "Cagnes-sur-Mer", some ("43.66", "7.14"), some "2020-01-01",
          [(Json.str "in", Json.str "Inbound")]⟩ :=
  ⟨(c4_single_transition _ _ _).1 rfl,
   (c4_single_transition _ _ _).2 rfl sampleMeta _ rfl rfl⟩

/-- C6: in a two-script document where the first script carries both markers
but its located substring fails to decode, and the second decodes to a
payload with both required keys, the extractor skips the first (the decode
failure only makes the loop continue) and returns the second's payload. -/
theorem c6_second_script_payload :
    extract_nextjs_data [some scriptBadJson, some scriptChartKpi] =
      Except.ok payloadChartKpi ∧
      processScript (some scriptBadJson) = Except.ok none :=
  ⟨rfl, rfl⟩

/-- C7: assembling aggregate series t1:5, t2:7 with direction series
north=t1:3 and south=t2:7 yields the outer-joined table with rows
t1:(5, 3, null) and t2:(7, null, 7) under columns count, north, south —
every timestamp of any input appears, and absent cells are nulls, not
zeroes. -/
theorem c7_assembler_example :
    fetch_counts_from_payload payloadJoinExample = Except.ok
      ⟨[Json.str "count", Json.str "north", Json.str "south"],
       [("2024-01-01", [some (Json.num 5), some (Json.num 3), none]),
        ("2024-01-02", [some (Json.num 7), none, some (Json.num 7)])]⟩ :=
  rfl

/-- C9: a payload whose `directionGraphData` is present but empty makes the
directional step take `dir_data[0]` of an empty list, so it raises
`IndexError` and `fetch_counts` never returns a Dataset for such a payload. -/
theorem c9_empty_direction_list_errors (d : Json)
    (h : jsonGetKey d "directionGraphData" = Except.ok (Json.arr [])) :
    extract_directional_counts d = Except.error PyErr.indexError ∧
      ∀ f : Frame, fetch_counts_from_payload d ≠ Except.ok f := by
  have h1 : extract_directional_counts d = Except.error PyErr.indexError := by
    simp [extract_directional_counts, h, jsonIter, dirFrames]
  refine ⟨h1, ?_⟩
  intro f hf
  unfold fetch_counts_from_payload at hf
  rcases hg : extract_global_counts d with e | g
  · rw [hg] at hf
    exact Except.noConfusion hf
  · simp only [hg, h1] at hf
    exact Except.noConfusion hf

/-- Witness for C9 at a payload with a well-formed aggregate series and an
empty direction list. -/
theorem c9_empty_direction_list_errors_witness :
    extract_directional_counts payloadEmptyDirections = Except.error PyErr.indexError ∧
      fetch_counts_from_payload payloadEmptyDirections ≠ Except.ok ⟨[Json.str "count"], []⟩ :=
  ⟨(c9_empty_direction_list_errors payloadEmptyDirections rfl).1,
   (c9_empty_direction_list_errors payloadEmptyDirections rfl).2 ⟨[Json.str "count"], []⟩⟩

end EcoScraper
